import Mathlib

/-!
Verification development for the voice-chat frontend variants of this
repository.  The repository holds near-duplicate React components; the
logic relevant to the specification is embedded here as pure Lean
functions over explicit states:

* `P0`  — the variant in `src/unnamed/part_000` (explicit
  idle/recording/processing status, empty-blob screening, `response.ok`
  check, guarded playback with release of the previous audio element,
  index-loop hex decoder in `playAudioResponse`);
* `MP`  — the variant in `src/frontend/my-project/src/main-page.tsx`
  (ffmpeg conversion, no `response.ok` check, regex hex decoder applied
  unconditionally, `handleSendText`);
* `P1`  — the first component in `src/unnamed/part_001` (MediaRecorder
  handled inline, media-stream tracks stopped in the `onstop` handler,
  regex hex decoder, `handleSendText`).

The asynchronous remote call is modelled by a `RemoteOutcome` value: the
handlers are single-threaded and every `await` resumes in program order,
so a handler is a pure function of its initial state, its arguments and
the outcome of the one `fetch` it performs.  Side effects that the
specification talks about (appending a chat message, issuing the network
request, releasing and starting playback resources) are recorded in an
event trace carried in the state.
-/

/-- Chat roles of the message log (`role: "user" | "assistant"`). -/
inductive Role where
  | user
  | assistant
  deriving DecidableEq, Repr

/-- One entry of the message log (`{role, content}`). -/
structure Message where
  role : Role
  content : String
  deriving DecidableEq, Repr

/-- The explicit status state of the part_000 variant
(`"idle" | "recording" | "processing"`). -/
inductive SessionState where
  | idle
  | recording
  | processing
  deriving DecidableEq, Repr

/-- A binary blob; only its size is observable to the embedded logic
(`audioBlob.size` is the one field the handlers inspect). -/
structure Blob where
  size : Nat
  deriving DecidableEq, Repr

/-- The payload carried by the outbound request: either the recorded
audio blob appended to the `audio` form field, or the placeholder text
blob that `handleSendText` puts in the same field. -/
inductive Payload where
  | audioWav (size : Nat)
  | textPlaceholder (text : String)
  deriving DecidableEq, Repr

/-- Observable side effects of a handler, recorded in program order. -/
inductive Event where
  | append (m : Message)
  | request (p : Payload)
  | releasePlayback
  | startPlayback (bytes : List Nat)
  deriving DecidableEq, Repr

/-- The JSON body the handlers read from the response.  `transcript` and
`response_text` are modelled as plain strings because no handler branches
on their absence; `audio` is optional because main-page and part_001
dereference it unconditionally and throw when it is absent. -/
structure ResponseData where
  status : String
  transcript : String
  response_text : String
  audio : Option String
  message : Option String
  deriving DecidableEq, Repr

/-- Outcome of the one `fetch` a handler performs.
`fetchError`: `fetch` (or anything before it inside the `try`) throws;
`jsonError ok`: a response with 2xx flag `ok` arrives but
`response.json()` throws;
`parsed ok data`: a response with 2xx flag `ok` arrives and parses to
`data`. -/
inductive RemoteOutcome where
  | fetchError
  | jsonError (ok : Bool)
  | parsed (ok : Bool) (data : ResponseData)
  deriving DecidableEq, Repr

/-! ### Hexadecimal decoding

Two decoders occur in the sources: the index loop of part_000's
`playAudioResponse` and the regex pipeline
`audio.match(/.{1,2}/g).map(b => parseInt(b, 16))` of main-page and
part_001. -/

/-- Value of one hexadecimal digit (`0-9`, `a-f`, `A-F`), `none` for any
other character.  The bounds are the character codes of `0`..`9`,
`a`..`f`, `A`..`F`. -/
def hexDigit (c : Char) : Option Nat :=
  if 48 ≤ c.toNat ∧ c.toNat ≤ 57 then some (c.toNat - 48)
  else if 97 ≤ c.toNat ∧ c.toNat ≤ 102 then some (c.toNat - 87)
  else if 65 ≤ c.toNat ∧ c.toNat ≤ 70 then some (c.toNat - 55)
  else none

/-- Accumulating phase of JS `parseInt(s, 16)`: consume hex digits until
a non-digit is met, returning the value read so far. -/
def parseIntHexGo (acc : Nat) : List Char → Nat
  | [] => acc
  | c :: rest =>
    match hexDigit c with
    | some d => parseIntHexGo (16 * acc + d) rest
    | none => acc

/-- JS `parseInt(s, 16)` on the short digit strings these decoders feed
it: the longest hex-digit prefix is parsed, `none` models `NaN` (no
leading digit).  Sign, whitespace and `0x`-prefix forms do not occur in
the two-character slices the decoders produce. -/
def parseIntHex (s : String) : Option Nat :=
  match s.data with
  | [] => none
  | c :: rest =>
    match hexDigit c with
    | some d => some (parseIntHexGo d rest)
    | none => none

/-- Element conversion of a JS `Uint8Array` store: `NaN` becomes `0`,
finite values are reduced modulo 256. -/
def toUint8 : Option Nat → Nat
  | none => 0
  | some n => n % 256

/-- JS `s.substr(start, len)` for non-negative arguments. -/
def substrJS (s : String) (start len : Nat) : String :=
  String.mk ((s.data.drop start).take len)

/-- part_000 `playAudioResponse` decoding: a `Uint8Array` of length
`audioHex.length / 2` is filled by
`buffer[i/2] = parseInt(audioHex.substr(i, 2), 16)` for even `i`.
For odd-length input `audioHex.length / 2` is fractional and the
`Uint8Array` constructor throws a `RangeError` (caught by the
surrounding `try`), modelled by `none`. -/
def decodeHexLoop (audioHex : String) : Option (List Nat) :=
  if audioHex.length % 2 = 0 then
    some ((List.range (audioHex.length / 2)).map fun k =>
      toUint8 (parseIntHex (substrJS audioHex (2 * k) 2)))
  else none

/-- The chunking performed by the regex `/.{1,2}/g`: maximal groups of
two characters, a final singleton when the length is odd. -/
def chunkPairs : List Char → List (List Char)
  | [] => []
  | [c] => [[c]]
  | c1 :: c2 :: rest => [c1, c2] :: chunkPairs rest

/-- JS `s.match(/.{1,2}/g)`: `null` (here `none`) on the empty string,
otherwise the list of matched chunks. -/
def jsMatchPairs (s : String) : Option (List String) :=
  match s.data with
  | [] => none
  | _ => some ((chunkPairs s.data).map String.mk)

/-- Regex decoder of main-page / part_001:
`new Uint8Array(audio.match(/.{1,2}/g).map(b => parseInt(b, 16)))`.
When `match` returns `null` the `.map` call throws a `TypeError`
(caught by the surrounding `try`), modelled by `none`. -/
def decodeHexRegex (audio : String) : Option (List Nat) :=
  (jsMatchPairs audio).map fun chunks =>
    chunks.map fun b => toUint8 (parseIntHex b)

/-- Spec-side decoding rule (§6 of the spec): each consecutive pair of
hex characters is one byte, high nibble first; defined exactly on
even-length sequences of valid hex characters. -/
def pairsToBytes : List Char → Option (List Nat)
  | [] => some []
  | [_] => none
  | c1 :: c2 :: rest =>
    match hexDigit c1, hexDigit c2, pairsToBytes rest with
    | some hi, some lo, some bs => some ((16 * hi + lo) :: bs)
    | _, _, _ => none

/-- Character of one hex digit value (lowercase). -/
def hexDigitChar (n : Nat) : Char :=
  if n < 10 then Char.ofNat (48 + n) else Char.ofNat (87 + n)

/-- Byte list to hex character list, high nibble first. -/
def encodeHexList : List Nat → List Char
  | [] => []
  | b :: rest => hexDigitChar (b / 16) :: hexDigitChar (b % 16) :: encodeHexList rest

/-- Modelled from the spec: the encoding direction of the round-trip
property (§8).  The encoder lives in the out-of-repo backend; the spec
fixes it as standard hexadecimal, two characters per byte, high nibble
first, matching the decoding rule of §6. -/
def encodeHex (bytes : List Nat) : String :=
  String.mk (encodeHexList bytes)

/-! ### Lemmas on the decoders -/

theorem hexDigit_lt {c : Char} {d : Nat} (h : hexDigit c = some d) : d < 16 := by
  unfold hexDigit at h
  split at h
  next h1 => injection h with h2; omega
  next =>
    split at h
    next h2 => injection h with h3; omega
    next =>
      split at h
      next h3 => injection h with h4; omega
      next => exact absurd h (by simp)

theorem hexDigit_hexDigitChar : ∀ m, m < 16 → hexDigit (hexDigitChar m) = some m := by
  decide

/-- The table of substring reads performed by the part_000 loop equals
the regex chunking, for even-length character lists. -/
theorem range_take_eq_chunkPairs : ∀ (l : List Char), l.length % 2 = 0 →
    (List.range (l.length / 2)).map (fun k => (l.drop (2 * k)).take 2) = chunkPairs l
  | [], _ => rfl
  | [_], h => by simp at h
  | c1 :: c2 :: rest, h => by
    have hr : rest.length % 2 = 0 := by
      simp only [List.length_cons] at h
      omega
    have hdiv : (c1 :: c2 :: rest).length / 2 = rest.length / 2 + 1 := by
      simp only [List.length_cons]
      omega
    have ih := range_take_eq_chunkPairs rest hr
    rw [hdiv, List.range_succ_eq_map, List.map_cons, List.map_map]
    have htail : ∀ k ∈ List.range (rest.length / 2),
        ((fun k => ((c1 :: c2 :: rest).drop (2 * k)).take 2) ∘ Nat.succ) k
          = (rest.drop (2 * k)).take 2 := by
      intro k _
      have h2 : 2 * Nat.succ k = 2 * k + 2 := by omega
      simp only [Function.comp_apply, h2]
      rfl
    rw [List.map_congr_left htail, ih]
    rfl

/-- The part_000 loop decoder, rephrased over the regex chunking. -/
theorem decodeHexLoop_eq_chunks (s : String) (hev : s.length % 2 = 0) :
    decodeHexLoop s
      = some ((chunkPairs s.data).map fun ch => toUint8 (parseIntHex (String.mk ch))) := by
  unfold decodeHexLoop
  rw [if_pos hev]
  have hlen : s.length = s.data.length := rfl
  rw [hlen] at hev ⊢
  rw [← range_take_eq_chunkPairs s.data hev, List.map_map]
  rfl

/-- A list accepted by the spec-side decoding rule has even length, and
the chunk evaluation performed by the loop decoder returns exactly the
bytes the rule prescribes. -/
theorem pairsToBytes_chunks : ∀ (l : List Char) (bs : List Nat),
    pairsToBytes l = some bs →
    l.length % 2 = 0
      ∧ (chunkPairs l).map (fun ch => toUint8 (parseIntHex (String.mk ch))) = bs
  | [], bs, h => by
    simp only [pairsToBytes, Option.some.injEq] at h
    subst h
    exact ⟨rfl, rfl⟩
  | [_], bs, h => by simp [pairsToBytes] at h
  | c1 :: c2 :: rest, bs, h => by
    unfold pairsToBytes at h
    cases h1 : hexDigit c1 with
    | none => rw [h1] at h; simp at h
    | some hi =>
      cases h2 : hexDigit c2 with
      | none => rw [h1, h2] at h; simp at h
      | some lo =>
        cases h3 : pairsToBytes rest with
        | none => rw [h1, h2, h3] at h; simp at h
        | some bsr =>
          rw [h1, h2, h3] at h
          simp only [Option.some.injEq] at h
          obtain ⟨he, hc⟩ := pairsToBytes_chunks rest bsr h3
          refine ⟨by simp only [List.length_cons]; omega, ?_⟩
          subst h
          simp only [chunkPairs, List.map_cons, hc]
          have hhi := hexDigit_lt h1
          have hlo := hexDigit_lt h2
          have hval : toUint8 (parseIntHex (String.mk [c1, c2])) = 16 * hi + lo := by
            simp only [parseIntHex, parseIntHexGo, h1, h2, toUint8]
            omega
          rw [hval]

/-- The loop decoder realises the spec-side decoding rule. -/
theorem decodeHexLoop_of_pairs (s : String) (bs : List Nat)
    (h : pairsToBytes s.data = some bs) : decodeHexLoop s = some bs := by
  obtain ⟨hev, hc⟩ := pairsToBytes_chunks s.data bs h
  rw [decodeHexLoop_eq_chunks s hev, hc]

/-- Encoding then applying the spec-side decoding rule is the identity on
byte sequences. -/
theorem pairsToBytes_encode : ∀ (bytes : List Nat), (∀ b ∈ bytes, b < 256) →
    pairsToBytes (encodeHexList bytes) = some bytes
  | [], _ => rfl
  | b :: rest, h => by
    have hb : b < 256 := h b (List.mem_cons_self b rest)
    have hdiv : b / 16 < 16 := by omega
    have hmod : b % 16 < 16 := by omega
    have ih := pairsToBytes_encode rest (fun x hx => h x (List.mem_cons_of_mem b hx))
    simp only [encodeHexList, pairsToBytes, hexDigit_hexDigitChar _ hdiv,
      hexDigit_hexDigitChar _ hmod, ih]
    have hd : 16 * (b / 16) + b % 16 = b := by omega
    rw [hd]

/-- C5: the hex decoding used for the response audio field (the loop of
part_000 `playAudioResponse`) maps each consecutive pair of hex
characters to one byte in high-to-low nibble order — it returns exactly
what the spec decoding rule `pairsToBytes` prescribes — and for every
byte sequence, encoding to hex and decoding back yields the original
bytes exactly; the statement is uniform in the (even) length, so it
covers lengths 0, 2 and 1024 in particular. -/
theorem c5_hex_decode_pairs_and_roundtrip :
    (∀ (s : String) (bs : List Nat), pairsToBytes s.data = some bs →
       decodeHexLoop s = some bs)
    ∧ (∀ bytes : List Nat, (∀ b ∈ bytes, b < 256) →
       decodeHexLoop (encodeHex bytes) = some bytes) :=
  ⟨decodeHexLoop_of_pairs,
   fun bytes hb => decodeHexLoop_of_pairs _ _ (pairsToBytes_encode bytes hb)⟩

/-- Witness for C5 at concrete inputs: the pair rule on "48", the
round trip on a two-byte sequence (hex length 2 is reached by the
one-byte case below) and on the 512-byte sequence whose hex encoding has
length 1024, plus the empty sequence (hex length 0). -/
theorem c5_witness :
    decodeHexLoop "48" = some [72]
    ∧ decodeHexLoop (encodeHex []) = some []
    ∧ decodeHexLoop (encodeHex [72]) = some [72]
    ∧ decodeHexLoop (encodeHex (List.replicate 512 171))
        = some (List.replicate 512 171) :=
  ⟨c5_hex_decode_pairs_and_roundtrip.1 "48" [72] (by decide),
   c5_hex_decode_pairs_and_roundtrip.2 [] (by decide),
   c5_hex_decode_pairs_and_roundtrip.2 [72] (by decide),
   c5_hex_decode_pairs_and_roundtrip.2 (List.replicate 512 171)
     (fun b hb => by rw [List.eq_of_mem_replicate hb]; omega)⟩

/-- C9 (amended): the two hex decoders — the part_000 index loop and the
regex pipeline of main-page / part_001 — produce the same byte sequence
on every NON-EMPTY even-length string of valid hex characters; on the
empty string they differ (see the counterexample), because `"".match`
returns `null`. -/
theorem c9_amended_decoders_agree (s : String) (hne : s.data ≠ [])
    (hev : s.length % 2 = 0) (_hhx : ∀ c ∈ s.data, (hexDigit c).isSome) :
    decodeHexLoop s = decodeHexRegex s := by
  rw [decodeHexLoop_eq_chunks s hev]
  unfold decodeHexRegex jsMatchPairs
  cases hd : s.data with
  | nil => exact absurd hd hne
  | cons c rest =>
    rw [← hd]
    simp only [Option.map_some', List.map_map]
    rfl

/-- Witness for C9 at the concrete input "48ab". -/
theorem c9_witness : decodeHexLoop "48ab" = decodeHexRegex "48ab" :=
  c9_amended_decoders_agree "48ab" (by decide) (by decide) (by decide)

/-- C9 counterexample: at the even-length all-hex input "" the loop
decoder yields the empty byte sequence, while the regex decoder throws
(`"".match(/.{1,2}/g)` is `null` and `.map` on `null` raises), so the
two decoders do not agree on every even-length valid-hex string. -/
theorem c9_counterexample_empty_string :
    decodeHexLoop "" = some [] ∧ decodeHexRegex "" = none := by
  constructor
  · decide
  · decide

/-! ### part_000: `src/unnamed/part_000` -/

namespace P0

/-- React state of the part_000 component, plus the playback ref and the
event trace.  `audioRef` holds the byte content of the currently owned
audio element (`audioRef.current`), `none` when no element was created
yet. -/
structure State where
  messages : List Message
  isLoading : Bool
  status : SessionState
  playbackError : Option String
  audioRef : Option (List Nat)
  trace : List Event
  deriving DecidableEq, Repr

/-- `setMessages(prev => [...prev, m])`, recorded in the trace. -/
def pushMsg (s : State) (m : Message) : State :=
  { s with messages := s.messages ++ [m], trace := s.trace ++ [Event.append m] }

/-- The generic failure text of the part_000 catch block (the template
literal contains no interpolation). -/
def errorText : String := "Error: Could not process audio. Please try again."

/-- The empty-capture text of part_000. -/
def emptyText : String := "No audio recorded. Please try again."

/-- part_000 `playAudioResponse(audioHex)`: decode the hex string into a
buffer (any exception — in particular the `RangeError` on odd length —
is caught and only sets `playbackError`); on success, if a previous
audio element is owned, pause it and revoke its object URL, then create
the new element, store it in `audioRef` and start playback.  The
`audio.play()` rejection handler and `audio.onended` only touch
`playbackError` asynchronously and are not part of this synchronous
step. -/
def playAudioResponse (s : State) (audioHex : String) : State :=
  match decodeHexLoop audioHex with
  | none => { s with playbackError := some "Failed to play audio response" }
  | some buffer =>
    let s1 :=
      match s.audioRef with
      | some _ => { s with trace := s.trace ++ [Event.releasePlayback] }
      | none => s
    { s1 with audioRef := some buffer, trace := s1.trace ++ [Event.startPlayback buffer] }

/-- part_000 `handleSendAudio(audioBlob)` as a function of the remote
outcome.  A `null` blob or a blob of size zero appends the empty-capture
message and returns to idle without touching the network.  Otherwise the
handler sets loading/processing, posts the form (`Event.request`), and:
on a non-2xx response, a JSON parse error, or `status !== "success"` it
throws into the catch block which appends `errorText`; on success it
appends the user transcript and the assistant reply and, only when the
`audio` field is present, plays it.  The `finally` block always clears
the loading flag and returns the status to idle. -/
def handleSendAudio (s : State) (audioBlob : Option Blob) (outcome : RemoteOutcome) :
    State :=
  match audioBlob with
  | none =>
    { pushMsg s ⟨Role.assistant, emptyText⟩ with
        isLoading := false, status := SessionState.idle }
  | some b =>
    if b.size = 0 then
      { pushMsg s ⟨Role.assistant, emptyText⟩ with
          isLoading := false, status := SessionState.idle }
    else
      let s1 := { s with isLoading := true, status := SessionState.processing }
      let s2 := { s1 with trace := s1.trace ++ [Event.request (Payload.audioWav b.size)] }
      let s3 :=
        match outcome with
        | RemoteOutcome.fetchError => pushMsg s2 ⟨Role.assistant, errorText⟩
        | RemoteOutcome.jsonError _ => pushMsg s2 ⟨Role.assistant, errorText⟩
        | RemoteOutcome.parsed ok data =>
          if ok then
            if data.status = "success" then
              let s4 := pushMsg (pushMsg s2 ⟨Role.user, data.transcript⟩)
                ⟨Role.assistant, data.response_text⟩
              match data.audio with
              | some hex => playAudioResponse s4 hex
              | none => s4
            else pushMsg s2 ⟨Role.assistant, errorText⟩
          else pushMsg s2 ⟨Role.assistant, errorText⟩
      { s3 with isLoading := false, status := SessionState.idle }

/-- The recorder closure produced by part_000 `recordAudio()`: the
media stream acquired by `start()` and the recording flag of the
`MediaRecorder`.  `chunkSizes` are the sizes of the accumulated
`ondataavailable` blobs. -/
structure Recorder where
  streamTracksLive : Bool
  recording : Bool
  chunkSizes : List Nat
  deriving DecidableEq, Repr

/-- part_000 `recordAudio().stop()`: `mediaRecorder.stop()` ends the
recording and the `onstop` handler resolves with the blob built from the
accumulated chunks.  `MediaRecorder.stop()` ends only the recording; the
media stream tracks are left as they were — no `track.stop()` occurs
anywhere in part_000 (contrast part_001, whose `onstop` handler stops
every track of the stream). -/
def recorderStop (r : Recorder) : Recorder × Blob :=
  ({ r with recording := false }, ⟨r.chunkSizes.foldl (fun a b => a + b) 0⟩)

end P0

/-! ### main-page: `src/frontend/my-project/src/main-page.tsx` -/

/-- The playback step shared by the main-page and part_001 success
branches: `data.audio` is dereferenced unconditionally.  An absent
`audio` field makes `.match` throw a `TypeError`; an empty string makes
`match` return `null` so the `.map` call throws; both are modelled by
`none` and land in the surrounding catch block.  Otherwise the decoded
bytes are wrapped in a blob/URL and played. -/
def decodeAttempt : Option String → Option (List Nat)
  | none => none
  | some hexStr => decodeHexRegex hexStr

/-- A whitespace character in the sense of JS `String.prototype.trim`
(restricted to the ASCII whitespace the UI can produce). -/
def isSpaceChar (c : Char) : Bool :=
  c = ' ' || c = '\t' || c = '\n' || c = '\r'

/-- JS `s.trim()`: strip whitespace from both ends. -/
def trimJS (s : String) : String :=
  String.mk (((s.data.dropWhile isSpaceChar).reverse.dropWhile isSpaceChar).reverse)

namespace MP

/-- React state of the main-page component plus the event trace. -/
structure State where
  messages : List Message
  isLoading : Bool
  transcript : String
  trace : List Event
  deriving DecidableEq, Repr

/-- `setMessages(prev => [...prev, m])`, recorded in the trace. -/
def pushMsg (s : State) (m : Message) : State :=
  { s with messages := s.messages ++ [m], trace := s.trace ++ [Event.append m] }

/-- Failure text of the main-page `handleSendAudio` catch block. -/
def errorText : String := "Sorry, I couldn\x27t process that. Please try again."

/-- Failure text of the main-page `handleSendText` catch block. -/
def errorTextSendText : String :=
  "Sorry, I couldn\x27t process that request. Please try again."

/-- ffmpeg webm-to-wav container conversion of main-page
`convertToWav`; byte content is not observable to the embedded logic, so
the blob is carried through (a conversion failure would follow the same
catch/finally path as `RemoteOutcome.fetchError`). -/
def convertToWav (b : Blob) : Blob := b

/-- main-page `handleSendAudio(audioBlob)`.  A `null` blob returns
silently (before `setIsLoading(true)`).  Otherwise the blob is converted
to wav and posted; the response's `ok` flag is never inspected; a body
with `status === "success"` appends the user and assistant messages and
then decodes/plays `data.audio` unconditionally — if that step throws,
the catch block appends `errorText` as a third message; any other body
throws into the same catch block.  `finally` clears the loading flag. -/
def handleSendAudio (s : State) (audioBlob : Option Blob) (outcome : RemoteOutcome) :
    State :=
  match audioBlob with
  | none => s
  | some b =>
    let s1 := { s with isLoading := true }
    let wav := convertToWav b
    let s2 := { s1 with trace := s1.trace ++ [Event.request (Payload.audioWav wav.size)] }
    let s3 :=
      match outcome with
      | RemoteOutcome.fetchError => pushMsg s2 ⟨Role.assistant, errorText⟩
      | RemoteOutcome.jsonError _ => pushMsg s2 ⟨Role.assistant, errorText⟩
      | RemoteOutcome.parsed _ data =>
        if data.status = "success" then
          let s4 := pushMsg (pushMsg s2 ⟨Role.user, data.transcript⟩)
            ⟨Role.assistant, data.response_text⟩
          match decodeAttempt data.audio with
          | none => pushMsg s4 ⟨Role.assistant, errorText⟩
          | some bytes => { s4 with trace := s4.trace ++ [Event.startPlayback bytes] }
        else pushMsg s2 ⟨Role.assistant, errorText⟩
    { s3 with isLoading := false }

/-- main-page `handleSendText()`.  An input that is empty after trimming
returns before any effect.  Otherwise the trimmed text is appended as a
user message, the input is cleared, loading is set, and the text is
posted as a plain-text blob in the `audio` form field; the response
handling mirrors `handleSendAudio` except that only the assistant
message is appended on success. -/
def handleSendText (s : State) (outcome : RemoteOutcome) : State :=
  if trimJS s.transcript = "" then s
  else
    let userMessage := trimJS s.transcript
    let s1 := pushMsg s ⟨Role.user, userMessage⟩
    let s2 := { s1 with transcript := "", isLoading := true }
    let s3 := { s2 with
      trace := s2.trace ++ [Event.request (Payload.textPlaceholder userMessage)] }
    let s4 :=
      match outcome with
      | RemoteOutcome.fetchError => pushMsg s3 ⟨Role.assistant, errorTextSendText⟩
      | RemoteOutcome.jsonError _ => pushMsg s3 ⟨Role.assistant, errorTextSendText⟩
      | RemoteOutcome.parsed _ data =>
        if data.status = "success" then
          let s5 := pushMsg s3 ⟨Role.assistant, data.response_text⟩
          match decodeAttempt data.audio with
          | none => pushMsg s5 ⟨Role.assistant, errorTextSendText⟩
          | some bytes => { s5 with trace := s5.trace ++ [Event.startPlayback bytes] }
        else pushMsg s3 ⟨Role.assistant, errorTextSendText⟩
    { s4 with isLoading := false }

end MP

/-! ### part_001: first component of `src/unnamed/part_001` -/

namespace P1

/-- React state of the part_001 component, the liveness of the media
stream tracks acquired by `getUserMedia`, and the event trace. -/
structure State where
  messages : List Message
  isLoading : Bool
  isRecording : Bool
  transcript : String
  tracksLive : Bool
  trace : List Event
  deriving DecidableEq, Repr

/-- `setMessages(prev => [...prev, m])`, recorded in the trace. -/
def pushMsg (s : State) (m : Message) : State :=
  { s with messages := s.messages ++ [m], trace := s.trace ++ [Event.append m] }

/-- Failure text of the part_001 `handleSendAudio` catch block. -/
def errorText : String := "Sorry, I couldn\x27t process that. Please try again."

/-- Failure text of the part_001 `handleSendText` catch block. -/
def errorTextSendText : String :=
  "Sorry, I couldn\x27t process that request. Please try again."

/-- part_001 `handleSendAudio(audioBlob)`.  A `null` blob returns
silently; a non-null blob (of any size, zero included) is posted.  The
response's `ok` flag is never inspected; a body with
`status === "success"` appends the user and assistant messages and then
decodes/plays `data.audio` unconditionally — if that throws, the catch
block appends `errorText` as a third message; any other body throws into
the same catch block.  `finally` clears the loading flag. -/
def handleSendAudio (s : State) (audioBlob : Option Blob) (outcome : RemoteOutcome) :
    State :=
  match audioBlob with
  | none => s
  | some b =>
    let s1 := { s with isLoading := true }
    let s2 := { s1 with trace := s1.trace ++ [Event.request (Payload.audioWav b.size)] }
    let s3 :=
      match outcome with
      | RemoteOutcome.fetchError => pushMsg s2 ⟨Role.assistant, errorText⟩
      | RemoteOutcome.jsonError _ => pushMsg s2 ⟨Role.assistant, errorText⟩
      | RemoteOutcome.parsed _ data =>
        if data.status = "success" then
          let s4 := pushMsg (pushMsg s2 ⟨Role.user, data.transcript⟩)
            ⟨Role.assistant, data.response_text⟩
          match decodeAttempt data.audio with
          | none => pushMsg s4 ⟨Role.assistant, errorText⟩
          | some bytes => { s4 with trace := s4.trace ++ [Event.startPlayback bytes] }
        else pushMsg s2 ⟨Role.assistant, errorText⟩
    { s3 with isLoading := false }

/-- part_001 `handleSendText()`: identical control flow to the main-page
variant. -/
def handleSendText (s : State) (outcome : RemoteOutcome) : State :=
  if trimJS s.transcript = "" then s
  else
    let userMessage := trimJS s.transcript
    let s1 := pushMsg s ⟨Role.user, userMessage⟩
    let s2 := { s1 with transcript := "", isLoading := true }
    let s3 := { s2 with
      trace := s2.trace ++ [Event.request (Payload.textPlaceholder userMessage)] }
    let s4 :=
      match outcome with
      | RemoteOutcome.fetchError => pushMsg s3 ⟨Role.assistant, errorTextSendText⟩
      | RemoteOutcome.jsonError _ => pushMsg s3 ⟨Role.assistant, errorTextSendText⟩
      | RemoteOutcome.parsed _ data =>
        if data.status = "success" then
          let s5 := pushMsg s3 ⟨Role.assistant, data.response_text⟩
          match decodeAttempt data.audio with
          | none => pushMsg s5 ⟨Role.assistant, errorTextSendText⟩
          | some bytes => { s5 with trace := s5.trace ++ [Event.startPlayback bytes] }
        else pushMsg s3 ⟨Role.assistant, errorTextSendText⟩
    { s4 with isLoading := false }

/-- part_001 `mediaRecorder.onstop` handler: build the blob from the
accumulated chunks, stop every track of the acquired media stream
(`stream.getTracks().forEach(track => track.stop())`), and hand the blob
on.  Returns the state after the track stop together with the blob. -/
def onStopHandler (s : State) (chunkSizes : List Nat) : State × Blob :=
  ({ s with tracksLive := false },
   ⟨chunkSizes.foldl (fun a b => a + b) 0⟩)

/-- part_001 `toggleRecording()` while recording:
`mediaRecorder.stop()` fires the `onstop` handler, `setIsRecording
(false)`; the handler stops the tracks and awaits `handleSendAudio` on
the finalized blob. -/
def stopFlow (s : State) (chunkSizes : List Nat) (outcome : RemoteOutcome) : State :=
  let p := onStopHandler { s with isRecording := false } chunkSizes
  handleSendAudio p.1 (some p.2) outcome

end P1

/-! ### Helper lemmas on the handler states -/

/-- part_000 `playAudioResponse` never touches the message log. -/
theorem P0.playAudioResponse_messages (s : P0.State) (hexStr : String) :
    (P0.playAudioResponse s hexStr).messages = s.messages := by
  unfold P0.playAudioResponse
  split
  · rfl
  · split <;> rfl

/-- part_001 `handleSendAudio` never touches the media stream tracks. -/
theorem P1.handleSendAudio_tracksLive (s : P1.State) (b : Option Blob)
    (o : RemoteOutcome) : (P1.handleSendAudio s b o).tracksLive = s.tracksLive := by
  cases b with
  | none => rfl
  | some b =>
    unfold P1.handleSendAudio
    cases o with
    | fetchError => rfl
    | jsonError ok => rfl
    | parsed ok data =>
      simp only
      split
      · split <;> rfl
      · rfl

/-- When the regex match succeeds (non-empty input), the shared playback
step succeeds. -/
theorem decodeAttempt_some_of_ne (s : String) (h : s.data ≠ []) :
    ∃ bytes, decodeAttempt (some s) = some bytes := by
  have he : decodeAttempt (some s) = decodeHexRegex s := rfl
  rw [he]
  unfold decodeHexRegex jsMatchPairs
  cases hd : s.data with
  | nil => exact absurd hd h
  | cons c r => exact ⟨_, rfl⟩

theorem take_append_one {α : Type} (a : List α) (x : α) (d : List α) :
    (a ++ x :: d).take (a.length + 1) = a ++ [x] := by
  induction a with
  | nil => simp
  | cons z zs ih => simp [ih]

theorem take_append_two {α : Type} (a : List α) (x y : α) (d : List α) :
    (a ++ x :: y :: d).take (a.length + 2) = a ++ [x, y] := by
  induction a with
  | nil => simp
  | cons z zs ih =>
    simp only [List.cons_append, List.length_cons]
    have harith : zs.length + 1 + 2 = (zs.length + 2) + 1 := by omega
    rw [harith, List.take_succ_cons, ih]

/-- Number of `startPlayback` events in a trace. -/
def countStarts (tr : List Event) : Nat :=
  tr.countP fun e => match e with
    | Event.startPlayback _ => true
    | _ => false

/-- Number of `releasePlayback` events in a trace. -/
def countReleases (tr : List Event) : Nat :=
  tr.countP fun e => match e with
    | Event.releasePlayback => true
    | _ => false

/-! ### The claims -/

/-- C1: for every invocation of `handleSendAudio` and every outcome of
the remote call — success, non-2xx status, malformed JSON,
remote-reported failure, or thrown error — the part_000 session ends
with status idle and the loading flag cleared (this includes the
empty-payload early return, which also resets both), and the main-page
variant, whose only session state is the loading flag, ends every
invocation that reaches the remote call with the loading flag cleared:
the `finally` blocks leave no exit path that skips the return to
idle. -/
theorem c1_send_returns_to_idle :
    (∀ (s : P0.State) (audioBlob : Option Blob) (outcome : RemoteOutcome),
       (P0.handleSendAudio s audioBlob outcome).status = SessionState.idle
       ∧ (P0.handleSendAudio s audioBlob outcome).isLoading = false)
    ∧ (∀ (s : MP.State) (b : Blob) (outcome : RemoteOutcome),
       (MP.handleSendAudio s (some b) outcome).isLoading = false) := by
  refine ⟨fun s blob o => ?_, fun s b o => rfl⟩
  cases blob with
  | none => exact ⟨rfl, rfl⟩
  | some b =>
    by_cases hb : b.size = 0 <;>
      exact ⟨by simp [P0.handleSendAudio, hb], by simp [P0.handleSendAudio, hb]⟩

/-- C2 (amended): in the part_000 variant an empty payload — `null` blob
or blob of size zero — issues no network request and appends exactly one
assistant Message (the trace gains only the append event, no request
event); in the main-page and part_001 variants a `null` blob is a silent
no-op: the handler returns with the state untouched, so no Message is
appended there (and a size-zero blob is not screened at all —
see the counterexample). -/
theorem c2_amended_empty_payload :
    (∀ (s : P0.State) (o : RemoteOutcome),
       (P0.handleSendAudio s none o).messages
           = s.messages ++ [⟨Role.assistant, P0.emptyText⟩]
       ∧ (P0.handleSendAudio s none o).trace
           = s.trace ++ [Event.append ⟨Role.assistant, P0.emptyText⟩])
    ∧ (∀ (s : P0.State) (o : RemoteOutcome) (b : Blob), b.size = 0 →
       (P0.handleSendAudio s (some b) o).messages
           = s.messages ++ [⟨Role.assistant, P0.emptyText⟩]
       ∧ (P0.handleSendAudio s (some b) o).trace
           = s.trace ++ [Event.append ⟨Role.assistant, P0.emptyText⟩])
    ∧ (∀ (s : MP.State) (o : RemoteOutcome), MP.handleSendAudio s none o = s)
    ∧ (∀ (s : P1.State) (o : RemoteOutcome), P1.handleSendAudio s none o = s) := by
  refine ⟨fun s o => ⟨rfl, rfl⟩, fun s o b hb => ?_, fun s o => rfl, fun s o => rfl⟩
  constructor <;> simp [P0.handleSendAudio, P0.pushMsg, hb]

/-- Witness for C2 at a concrete size-zero blob. -/
theorem c2_witness :
    (P0.handleSendAudio ⟨[], false, SessionState.idle, none, none, []⟩
        (some ⟨0⟩) RemoteOutcome.fetchError).messages
      = ([] : List Message) ++ [⟨Role.assistant, P0.emptyText⟩]
    ∧ (P0.handleSendAudio ⟨[], false, SessionState.idle, none, none, []⟩
        (some ⟨0⟩) RemoteOutcome.fetchError).trace
      = ([] : List Event) ++ [Event.append ⟨Role.assistant, P0.emptyText⟩] :=
  c2_amended_empty_payload.2.1 ⟨[], false, SessionState.idle, none, none, []⟩
    RemoteOutcome.fetchError ⟨0⟩ rfl

/-- C2 counterexample: in the main-page variant, `handleSendAudio` with
a `null` blob appends no Message at all — the claimed "exactly one
assistant-role Message" is violated and the empty payload IS a silent
no-op there. -/
theorem c2_counterexample_null_blob_silent :
    (MP.handleSendAudio ⟨[], false, "", []⟩ none RemoteOutcome.fetchError).messages.length
        ≠ 1
    ∧ MP.handleSendAudio ⟨[], false, "", []⟩ none RemoteOutcome.fetchError
        = ⟨[], false, "", []⟩ :=
  ⟨by decide, rfl⟩

/-- C8 (amended): in part_001 every stop of a recording stops the
acquired media stream's tracks in the `onstop` handler, before the
finalized payload is handed to `handleSendAudio` (which never revives
them); in part_000, `recordAudio().stop()` only stops the
`MediaRecorder` and never stops the stream tracks, so the capture device
is not released there (see the counterexample). -/
theorem c8_amended_capture_release :
    (∀ (s : P1.State) (chunkSizes : List Nat),
       ((P1.onStopHandler s chunkSizes).1).tracksLive = false)
    ∧ (∀ (s : P1.State) (b : Option Blob) (o : RemoteOutcome),
       (P1.handleSendAudio s b o).tracksLive = s.tracksLive)
    ∧ (∀ (s : P1.State) (chunkSizes : List Nat) (o : RemoteOutcome),
       (P1.stopFlow s chunkSizes o).tracksLive = false) :=
  ⟨fun _ _ => rfl,
   P1.handleSendAudio_tracksLive,
   fun s chunkSizes o => by
     unfold P1.stopFlow
     rw [P1.handleSendAudio_tracksLive]
     rfl⟩

/-- C8 counterexample: stopping the part_000 recorder leaves the media
stream tracks live — `mediaRecorder.stop()` is called but no
`track.stop()` ever is, so the capture device is not released upon
producing the finalized payload. -/
theorem c8_counterexample_p0_tracks_not_stopped :
    ((P0.recorderStop ⟨true, true, [4]⟩).1).streamTracksLive = true := rfl

/-- C10: when the remote response has `status = "success"` but no
`audio` field, the main-page variant appends THREE messages — the user
transcript, the assistant reply, and then (because the unconditional
`data.audio.match` throws into the catch block) the assistant failure
message — while the part_000 variant guards playback with `if
(data.audio)` and appends exactly the two messages of a successful
turn. -/
theorem c10_missing_audio_three_messages :
    ∀ (s : MP.State) (s0 : P0.State) (b : Blob) (data : ResponseData),
      data.status = "success" → data.audio = none → b.size ≠ 0 →
      (MP.handleSendAudio s (some b) (RemoteOutcome.parsed true data)).messages
        = s.messages ++ [⟨Role.user, data.transcript⟩,
            ⟨Role.assistant, data.response_text⟩, ⟨Role.assistant, MP.errorText⟩]
      ∧ (P0.handleSendAudio s0 (some b) (RemoteOutcome.parsed true data)).messages
        = s0.messages ++ [⟨Role.user, data.transcript⟩,
            ⟨Role.assistant, data.response_text⟩] := by
  intro s s0 b data hs haud hb
  constructor
  · simp [MP.handleSendAudio, MP.pushMsg, hs, haud, decodeAttempt]
  · simp [P0.handleSendAudio, P0.pushMsg, hs, haud, hb]

/-- Witness for C10 at a concrete successful response without audio. -/
theorem c10_witness :
    (MP.handleSendAudio ⟨[], false, "", []⟩ (some ⟨5⟩)
        (RemoteOutcome.parsed true ⟨"success", "hello", "hi there", none, none⟩)).messages
      = ([] : List Message) ++ [⟨Role.user, "hello"⟩, ⟨Role.assistant, "hi there"⟩,
          ⟨Role.assistant, MP.errorText⟩]
    ∧ (P0.handleSendAudio ⟨[], false, SessionState.idle, none, none, []⟩ (some ⟨5⟩)
        (RemoteOutcome.parsed true ⟨"success", "hello", "hi there", none, none⟩)).messages
      = ([] : List Message) ++ [⟨Role.user, "hello"⟩, ⟨Role.assistant, "hi there"⟩] :=
  c10_missing_audio_three_messages ⟨[], false, "", []⟩
    ⟨[], false, SessionState.idle, none, none, []⟩ ⟨5⟩
    ⟨"success", "hello", "hi there", none, none⟩ rfl rfl (by decide)

/-- C3 (amended): on a 2xx response whose body has `status = "success"`,
exactly two Messages are appended, user transcript first and assistant
reply second — unconditionally in part_000 (whose playback is guarded by
`if (data.audio)` and appends nothing); in the main-page and part_001
variants provided the `audio` field is present and non-empty, since
otherwise their unconditional decode throws and the catch block appends
a third message (see C10 and the counterexample). -/
theorem c3_amended_success_two_messages :
    (∀ (s : P0.State) (b : Blob) (data : ResponseData), b.size ≠ 0 →
       data.status = "success" →
       (P0.handleSendAudio s (some b) (RemoteOutcome.parsed true data)).messages
         = s.messages ++ [⟨Role.user, data.transcript⟩,
             ⟨Role.assistant, data.response_text⟩])
    ∧ (∀ (s : MP.State) (b : Blob) (data : ResponseData) (hexStr : String),
       data.status = "success" → data.audio = some hexStr → hexStr.data ≠ [] →
       (MP.handleSendAudio s (some b) (RemoteOutcome.parsed true data)).messages
         = s.messages ++ [⟨Role.user, data.transcript⟩,
             ⟨Role.assistant, data.response_text⟩])
    ∧ (∀ (s : P1.State) (b : Blob) (data : ResponseData) (hexStr : String),
       data.status = "success" → data.audio = some hexStr → hexStr.data ≠ [] →
       (P1.handleSendAudio s (some b) (RemoteOutcome.parsed true data)).messages
         = s.messages ++ [⟨Role.user, data.transcript⟩,
             ⟨Role.assistant, data.response_text⟩]) := by
  refine ⟨fun s b data hb hs => ?_, fun s b data hexStr hs haud hne => ?_,
    fun s b data hexStr hs haud hne => ?_⟩
  · cases haud : data.audio with
    | none => simp [P0.handleSendAudio, P0.pushMsg, hb, hs, haud]
    | some hex =>
      simp [P0.handleSendAudio, P0.pushMsg, hb, hs, haud,
        P0.playAudioResponse_messages]
  · obtain ⟨bytes, hbytes⟩ := decodeAttempt_some_of_ne hexStr hne
    simp [MP.handleSendAudio, MP.pushMsg, hs, haud, hbytes]
  · obtain ⟨bytes, hbytes⟩ := decodeAttempt_some_of_ne hexStr hne
    simp [P1.handleSendAudio, P1.pushMsg, hs, haud, hbytes]

/-- Witness for C3 at the concrete successful response of the spec's
example scenario. -/
theorem c3_witness :
    (P0.handleSendAudio ⟨[], false, SessionState.idle, none, none, []⟩ (some ⟨5⟩)
        (RemoteOutcome.parsed true
          ⟨"success", "hello", "hi there", some "48656c6c6f", none⟩)).messages
      = ([] : List Message) ++ [⟨Role.user, "hello"⟩, ⟨Role.assistant, "hi there"⟩]
    ∧ (MP.handleSendAudio ⟨[], false, "", []⟩ (some ⟨5⟩)
        (RemoteOutcome.parsed true
          ⟨"success", "hello", "hi there", some "48656c6c6f", none⟩)).messages
      = ([] : List Message) ++ [⟨Role.user, "hello"⟩, ⟨Role.assistant, "hi there"⟩] :=
  ⟨c3_amended_success_two_messages.1 ⟨[], false, SessionState.idle, none, none, []⟩
     ⟨5⟩ ⟨"success", "hello", "hi there", some "48656c6c6f", none⟩ (by decide) rfl,
   c3_amended_success_two_messages.2.1 ⟨[], false, "", []⟩ ⟨5⟩
     ⟨"success", "hello", "hi there", some "48656c6c6f", none⟩ "48656c6c6f"
     rfl rfl (by decide)⟩

/-- C3 counterexample: a send in the main-page variant whose response is
2xx with `status = "success"` but no `audio` field appends three
Messages, not exactly two. -/
theorem c3_counterexample_three_not_two :
    (MP.handleSendAudio ⟨[], false, "", []⟩ (some ⟨5⟩)
        (RemoteOutcome.parsed true
          ⟨"success", "hello", "hi there", none, none⟩)).messages.length ≠ 2
    ∧ (MP.handleSendAudio ⟨[], false, "", []⟩ (some ⟨5⟩)
        (RemoteOutcome.parsed true
          ⟨"success", "hello", "hi there", none, none⟩)).messages.length = 3 := by
  constructor <;> decide

/-- The failure outcomes of the claim for part_000: a non-2xx HTTP
status (which part_000 turns into a throw before reading the body), a
JSON parse error, or a parsed body whose `status` differs from
`"success"`. -/
def isFailureP0 : RemoteOutcome → Bool
  | RemoteOutcome.fetchError => false
  | RemoteOutcome.jsonError _ => true
  | RemoteOutcome.parsed ok data => !ok || data.status != "success"

/-- The failure outcomes part_001 actually detects: a JSON parse error
or a parsed body whose `status` differs from `"success"` — the HTTP
status flag is never inspected there. -/
def isFailureP1 : RemoteOutcome → Bool
  | RemoteOutcome.fetchError => false
  | RemoteOutcome.jsonError _ => true
  | RemoteOutcome.parsed _ data => data.status != "success"

/-- C4 (amended): exactly one assistant Message is appended and all
previously logged Messages are unmodified, for every failure kind the
variant detects: in part_000 all three claimed kinds — non-2xx status,
malformed JSON, `status !== "success"` — are treated uniformly this way;
in part_001 (and main-page) only malformed JSON and
`status !== "success"` are, because the HTTP status is ignored: a
non-2xx response with a well-formed success body is processed as a
success there (see the counterexample). -/
theorem c4_amended_failure_single_message :
    (∀ (s : P0.State) (b : Blob) (o : RemoteOutcome),
       b.size ≠ 0 → isFailureP0 o = true →
       (P0.handleSendAudio s (some b) o).messages
         = s.messages ++ [⟨Role.assistant, P0.errorText⟩])
    ∧ (∀ (s : P1.State) (b : Blob) (o : RemoteOutcome), isFailureP1 o = true →
       (P1.handleSendAudio s (some b) o).messages
         = s.messages ++ [⟨Role.assistant, P1.errorText⟩]) := by
  constructor
  · intro s b o hb hf
    cases o with
    | fetchError => simp [isFailureP0] at hf
    | jsonError ok => simp [P0.handleSendAudio, P0.pushMsg, hb]
    | parsed ok data =>
      cases ok with
      | false => simp [P0.handleSendAudio, P0.pushMsg, hb]
      | true =>
        have hs : data.status ≠ "success" := by
          simpa [isFailureP0] using hf
        simp [P0.handleSendAudio, P0.pushMsg, hb, hs]
  · intro s b o hf
    cases o with
    | fetchError => simp [isFailureP1] at hf
    | jsonError ok => simp [P1.handleSendAudio, P1.pushMsg]
    | parsed ok data =>
      have hs : data.status ≠ "success" := by
        simpa [isFailureP1] using hf
      simp [P1.handleSendAudio, P1.pushMsg, hs]

/-- Witness for C4: a concrete non-2xx outcome in part_000 and a
concrete `status: "error"` body in part_001. -/
theorem c4_witness :
    (P0.handleSendAudio ⟨[], false, SessionState.idle, none, none, []⟩ (some ⟨5⟩)
        (RemoteOutcome.parsed false ⟨"success", "t", "r", none, none⟩)).messages
      = ([] : List Message) ++ [⟨Role.assistant, P0.errorText⟩]
    ∧ (P1.handleSendAudio ⟨[], false, false, "", true, []⟩ (some ⟨5⟩)
        (RemoteOutcome.parsed true ⟨"error", "t", "r", none, some "boom"⟩)).messages
      = ([] : List Message) ++ [⟨Role.assistant, P1.errorText⟩] :=
  ⟨c4_amended_failure_single_message.1 ⟨[], false, SessionState.idle, none, none, []⟩
     ⟨5⟩ (RemoteOutcome.parsed false ⟨"success", "t", "r", none, none⟩)
     (by decide) (by decide),
   c4_amended_failure_single_message.2 ⟨[], false, false, "", true, []⟩ ⟨5⟩
     (RemoteOutcome.parsed true ⟨"error", "t", "r", none, some "boom"⟩) (by decide)⟩

/-- C4 counterexample: in part_001 a NON-2xx response whose body parses
with `status = "success"` is not treated as a failure: two messages
(user and assistant) are appended instead of the claimed single
assistant Message — the three failure kinds are not treated
uniformly. -/
theorem c4_counterexample_non2xx_success_body :
    (P1.handleSendAudio ⟨[], false, false, "", true, []⟩ (some ⟨5⟩)
        (RemoteOutcome.parsed false
          ⟨"success", "t", "r", some "48", none⟩)).messages.length ≠ 1
    ∧ (P1.handleSendAudio ⟨[], false, false, "", true, []⟩ (some ⟨5⟩)
        (RemoteOutcome.parsed false ⟨"success", "t", "r", some "48", none⟩)).messages
      = [⟨Role.user, "t"⟩, ⟨Role.assistant, "r"⟩] := by
  constructor <;> decide

/-- C6 (amended): in the part_000 variant, whenever `playAudioResponse`
creates a new playback resource while a previous audio element is still
owned, it releases the previous one first — the trace records the
release (pause + URL revocation) strictly before the start of the new
resource, and the new element replaces the old in `audioRef`; the
main-page and part_001 variants have no release at all: each success
plays a fresh `Audio` without stopping the previous one, so two
resources can play concurrently there (see the counterexample). -/
theorem c6_amended_release_before_start :
    ∀ (s : P0.State) (hexStr : String) (bytes prev : List Nat),
      s.audioRef = some prev → decodeHexLoop hexStr = some bytes →
      (P0.playAudioResponse s hexStr).trace
          = s.trace ++ [Event.releasePlayback, Event.startPlayback bytes]
      ∧ (P0.playAudioResponse s hexStr).audioRef = some bytes := by
  intro s hexStr bytes prev href hdec
  unfold P0.playAudioResponse
  rw [hdec, href]
  exact ⟨by simp, rfl⟩

/-- Witness for C6: a previous playback handle is owned and a new hex
payload arrives. -/
theorem c6_witness :
    (P0.playAudioResponse ⟨[], false, SessionState.idle, none, some [1], []⟩
        "48").trace
      = ([] : List Event) ++ [Event.releasePlayback, Event.startPlayback [72]]
    ∧ (P0.playAudioResponse ⟨[], false, SessionState.idle, none, some [1], []⟩
        "48").audioRef = some [72] :=
  c6_amended_release_before_start ⟨[], false, SessionState.idle, none, some [1], []⟩
    "48" [72] [1] rfl (by decide)

/-- C6 counterexample: two consecutive successful turns of the main-page
variant start two playback resources and never release any — the second
resource is created while the first was never stopped or revoked, so the
claimed "previous handle is always released before the new one starts"
fails for this variant. -/
theorem c6_counterexample_mp_no_release :
    countStarts ((MP.handleSendAudio
        (MP.handleSendAudio ⟨[], false, "", []⟩ (some ⟨5⟩)
          (RemoteOutcome.parsed true ⟨"success", "t", "r", some "48", none⟩))
        (some ⟨5⟩)
        (RemoteOutcome.parsed true ⟨"success", "t", "r", some "48", none⟩)).trace) = 2
    ∧ countReleases ((MP.handleSendAudio
        (MP.handleSendAudio ⟨[], false, "", []⟩ (some ⟨5⟩)
          (RemoteOutcome.parsed true ⟨"success", "t", "r", some "48", none⟩))
        (some ⟨5⟩)
        (RemoteOutcome.parsed true ⟨"success", "t", "r", some "48", none⟩)).trace) = 0 := by
  constructor <;> decide

/-- C7: `handleSendText` in both the main-page and part_001 variants: if
the input is empty after trimming, nothing happens at all (the state is
returned untouched — no Message, no request); otherwise exactly one user
Message carrying the trimmed text is appended and only then is the
remote request issued, whose payload is the placeholder encoding of the
text (a plain-text blob in the binary `audio` form field) — the trace
begins with exactly the append followed by the request, for every
outcome of the remote call. -/
theorem c7_sendtext_optimistic_append :
    (∀ (s : MP.State) (o : RemoteOutcome), trimJS s.transcript = "" →
       MP.handleSendText s o = s)
    ∧ (∀ (s : MP.State) (o : RemoteOutcome), trimJS s.transcript ≠ "" →
       (MP.handleSendText s o).trace.take (s.trace.length + 2)
           = s.trace ++ [Event.append ⟨Role.user, trimJS s.transcript⟩,
               Event.request (Payload.textPlaceholder (trimJS s.transcript))]
       ∧ (MP.handleSendText s o).messages.take (s.messages.length + 1)
           = s.messages ++ [⟨Role.user, trimJS s.transcript⟩])
    ∧ (∀ (s : P1.State) (o : RemoteOutcome), trimJS s.transcript = "" →
       P1.handleSendText s o = s)
    ∧ (∀ (s : P1.State) (o : RemoteOutcome), trimJS s.transcript ≠ "" →
       (P1.handleSendText s o).trace.take (s.trace.length + 2)
           = s.trace ++ [Event.append ⟨Role.user, trimJS s.transcript⟩,
               Event.request (Payload.textPlaceholder (trimJS s.transcript))]
       ∧ (P1.handleSendText s o).messages.take (s.messages.length + 1)
           = s.messages ++ [⟨Role.user, trimJS s.transcript⟩]) := by
  refine ⟨fun s o h => ?_, fun s o h => ?_, fun s o h => ?_, fun s o h => ?_⟩
  · simp [MP.handleSendText, h]
  · cases o with
    | fetchError =>
      constructor <;>
        simp [MP.handleSendText, MP.pushMsg, h, take_append_two, take_append_one]
    | jsonError ok =>
      constructor <;>
        simp [MP.handleSendText, MP.pushMsg, h, take_append_two, take_append_one]
    | parsed ok data =>
      by_cases hs : data.status = "success"
      · cases hda : decodeAttempt data.audio with
        | none =>
          constructor <;> simp [MP.handleSendText, MP.pushMsg, h, hs, hda,
            take_append_two, take_append_one]
        | some bytes =>
          constructor <;> simp [MP.handleSendText, MP.pushMsg, h, hs, hda,
            take_append_two, take_append_one]
      · constructor <;> simp [MP.handleSendText, MP.pushMsg, h, hs,
          take_append_two, take_append_one]
  · simp [P1.handleSendText, h]
  · cases o with
    | fetchError =>
      constructor <;>
        simp [P1.handleSendText, P1.pushMsg, h, take_append_two, take_append_one]
    | jsonError ok =>
      constructor <;>
        simp [P1.handleSendText, P1.pushMsg, h, take_append_two, take_append_one]
    | parsed ok data =>
      by_cases hs : data.status = "success"
      · cases hda : decodeAttempt data.audio with
        | none =>
          constructor <;> simp [P1.handleSendText, P1.pushMsg, h, hs, hda,
            take_append_two, take_append_one]
        | some bytes =>
          constructor <;> simp [P1.handleSendText, P1.pushMsg, h, hs, hda,
            take_append_two, take_append_one]
      · constructor <;> simp [P1.handleSendText, P1.pushMsg, h, hs,
          take_append_two, take_append_one]

/-- Witness for C7: the empty input " " is a no-op, and the input
" hi " appends the user message "hi" before the request is issued. -/
theorem c7_witness :
    MP.handleSendText ⟨[], false, " ", []⟩ RemoteOutcome.fetchError
        = ⟨[], false, " ", []⟩
    ∧ (MP.handleSendText ⟨[⟨Role.assistant, "old"⟩], false, " hi ", []⟩
        RemoteOutcome.fetchError).trace.take (([] : List Event).length + 2)
        = ([] : List Event) ++ [Event.append ⟨Role.user, trimJS " hi "⟩,
            Event.request (Payload.textPlaceholder (trimJS " hi "))]
    ∧ (MP.handleSendText ⟨[⟨Role.assistant, "old"⟩], false, " hi ", []⟩
        RemoteOutcome.fetchError).messages.take
          (([⟨Role.assistant, "old"⟩] : List Message).length + 1)
        = ([⟨Role.assistant, "old"⟩] : List Message) ++ [⟨Role.user, trimJS " hi "⟩] :=
  ⟨c7_sendtext_optimistic_append.1 ⟨[], false, " ", []⟩
     RemoteOutcome.fetchError (by decide),
   (c7_sendtext_optimistic_append.2.1 ⟨[⟨Role.assistant, "old"⟩], false, " hi ", []⟩
     RemoteOutcome.fetchError (by decide)).1,
   (c7_sendtext_optimistic_append.2.1 ⟨[⟨Role.assistant, "old"⟩], false, " hi ", []⟩
     RemoteOutcome.fetchError (by decide)).2⟩
